import Mathlib

/-!
Shallow embedding of src/toolchain/disassemble_hexdump.py.

The script hard-codes a list of byte values, writes them to a named
temporary file (opened in binary-write mode, with the default delete
behaviour: closing the file removes it from disk), flushes the file, runs
the external disassembler through os.system, and closes the temporary
file.  The embedding records the run as a trace of events over a file
state, parameterised by the payload and by the exit status the external
tool happens to return.
-/

set_option maxRecDepth 8000

namespace DisassembleHexdump

/-- The hard-coded byte list from line 7 of the script (the variable is
named list there as well).  Elements are modelled as integers, since a
Python list may in principle hold any integers; struct.pack is what
enforces the byte range. -/
def list : List Int := [
  0x55, 0x48, 0x89, 0xe5, 0xb8, 0x1, 0x0, 0x0, 0x0, 0x5d, 0xc3, 0x55,
  0x48, 0x89, 0xe5, 0xb8, 0x2, 0x0, 0x0, 0x0, 0x5d, 0xc3, 0x55, 0x48,
  0x89, 0xe5, 0xb8, 0x3, 0x0, 0x0, 0x0, 0x5d, 0xc3, 0x55, 0x48, 0x89,
  0xe5, 0xb8, 0x4, 0x0, 0x0, 0x0, 0x5d, 0xc3, 0x55, 0x48, 0x89, 0xe5,
  0xb8, 0x5, 0x0, 0x0, 0x0, 0x5d, 0xc3, 0x55, 0x48, 0x89, 0xe5, 0x40,
  0x89, 0xf0, 0x83, 0xc0, 0xfd, 0x83, 0xf8, 0x7, 0x77, 0x1e, 0x83, 0xf8,
  0x8, 0x73, 0x12, 0x89, 0xc0, 0x48, 0x8d, 0xd, 0x2c, 0x0, 0x0, 0x0,
  0x48, 0x63, 0x4, 0x81, 0x48, 0x1, 0xc1, 0xff, 0xe1, 0xe8, 0x9e, 0xff,
  0xff, 0xff, 0x5d, 0xc3, 0xe8, 0xc3, 0xff, 0xff, 0xff, 0x5d, 0xc3, 0xe8,
  0x9b, 0xff, 0xff, 0xff, 0x5d, 0xc3, 0xe8, 0x9f, 0xff, 0xff, 0xff, 0x5d,
  0xc3, 0xe8, 0xa3, 0xff, 0xff, 0xff, 0x5d, 0xc3, 0xdd, 0xff, 0xff, 0xff,
  0xe4, 0xff, 0xff, 0xff, 0xe4, 0xff, 0xff, 0xff, 0xe4, 0xff, 0xff, 0xff,
  0xe4, 0xff, 0xff, 0xff, 0xeb, 0xff, 0xff, 0xff, 0xf2, 0xff, 0xff, 0xff,
  0xf9, 0xff, 0xff, 0xff, 0x55, 0x48, 0x89, 0xe5, 0x41, 0x57, 0x48, 0x83,
  0xec, 0x8, 0x48, 0x89, 0xbc, 0x24, 0x0, 0x0, 0x0, 0x0, 0xb8, 0x3,
  0x0, 0x0, 0x0, 0x49, 0x89, 0xff, 0x4c, 0x89, 0xff, 0x40, 0x89, 0xc6,
  0xe8, 0x72, 0xff, 0xff, 0xff, 0x4c, 0x8b, 0xbc, 0x24, 0x0, 0x0, 0x0,
  0x0, 0x49, 0x8b, 0x4f, 0x8, 0x4c, 0x89, 0xff, 0x40, 0x89, 0xc6, 0xff,
  0xd1, 0x48, 0x83, 0xc4, 0x8, 0x41, 0x5f, 0x5d, 0xc3]

/-- Model of struct.pack applied to a count-of-unsigned-bytes format, as
built on line 10 of the script (the format string is the decimal count n
followed by the letter B, and the arguments are the list elements).
struct.pack raises struct.error when the number of arguments differs from
the count in the format, or when any argument falls outside the range
0..255; otherwise it returns the byte string whose bytes are exactly the
arguments in order.  Failure is modelled as none. -/
def structPackB (n : Nat) (args : List Int) : Option (List Int) :=
  if args.length = n ∧ ∀ b ∈ args, 0 ≤ b ∧ b ≤ 255 then some args else none

/-- One external-process invocation, as performed by os.system on line 12.
os.system hands the command line to the shell and does not capture the
standard output of the child. -/
structure Invocation where
  program : String
  flags : List String
  target : String
  captureStdout : Bool
deriving DecidableEq

/-- The command line built on line 12 of the script: objdump with the
flags -b binary -D -m i386:x86-64, applied to the path of the temporary
file, stdout left uncaptured. -/
def objdumpInvocation (path : String) : Invocation :=
  { program := "objdump"
    flags := ["-b", "binary", "-D", "-m", "i386:x86-64"]
    target := path
    captureStdout := false }

/-- Observable events of a run of the script: creation of the named
temporary file, a binary write, a flush, an external invocation, the
close (which, by the default delete behaviour of NamedTemporaryFile,
removes the file), and an uncaught Python exception. -/
inductive Event where
  | create (name : String)
  | write (data : List Int)
  | flush
  | invoke (inv : Invocation)
  | close
  | raise (msg : String)
deriving DecidableEq

/-- Result of one run of the script: the event trace, the wait status the
script observed from os.system (none when the invocation was never
reached), and the exit code of the Python process itself. -/
structure RunResult where
  trace : List Event
  toolStatus : Option Int
  scriptExit : Int
deriving DecidableEq

/-- Lines 9 to 13 of the script, as a function of the payload (line 7
hard-codes it to list), of the name the OS picks for the temporary file,
and of the exit status the external tool returns.  If struct.pack fails,
the write raises struct.error, nothing is written, os.system is never
reached, and the interpreter exits with code 1; otherwise the script
writes the packed bytes, flushes, invokes objdump, ignores the returned
status, closes (hence deletes) the temporary file, and exits with 0. -/
def runScript (tmp : String) (payload : List Int) (toolExit : Int) : RunResult :=
  match structPackB payload.length payload with
  | none =>
      { trace := [Event.create tmp, Event.raise "struct.error"]
        toolStatus := none
        scriptExit := 1 }
  | some bytes =>
      { trace := [Event.create tmp, Event.write bytes, Event.flush,
                  Event.invoke (objdumpInvocation tmp), Event.close]
        toolStatus := some toolExit
        scriptExit := 0 }

/-- State of the temporary file: whether it currently exists on disk and
its byte contents. -/
structure FileState where
  present : Bool
  contents : List Int
deriving DecidableEq

/-- Effect of one event on the file state.  create makes an empty file;
write appends the bytes; close deletes the file (NamedTemporaryFile is
opened with the default delete behaviour, so closing removes it); flush,
invoke and raise leave the file state unchanged. -/
def applyEvent (s : FileState) : Event → FileState
  | Event.create _ => { present := true, contents := [] }
  | Event.write data => { s with contents := s.contents ++ data }
  | Event.flush => s
  | Event.invoke _ => s
  | Event.close => { s with present := false }
  | Event.raise _ => s

/-- File state after a whole trace, starting from no file. -/
def finalState (events : List Event) : FileState :=
  events.foldl applyEvent { present := false, contents := [] }

/-- Contents of the temporary file at the moment of the first external
invocation, i.e. what the external tool reads back; none when the trace
never reaches an invocation. -/
def contentsAtInvokeFrom (s : FileState) : List Event → Option (List Int)
  | [] => none
  | Event.invoke _ :: _ => some s.contents
  | e :: rest => contentsAtInvokeFrom (applyEvent s e) rest

/-- Contents of the file as seen by the first external invocation of the
trace, starting from no file. -/
def contentsAtInvoke (events : List Event) : Option (List Int) :=
  contentsAtInvokeFrom { present := false, contents := [] } events

/-- The payloads of the write events of a trace, in order. -/
def writeEvents (events : List Event) : List (List Int) :=
  events.filterMap fun e =>
    match e with
    | Event.write data => some data
    | _ => none

/-- The external invocations of a trace, in order. -/
def invocationsOf (events : List Event) : List Invocation :=
  events.filterMap fun e =>
    match e with
    | Event.invoke inv => some inv
    | _ => none

/-- Whether an event is the write or the flush step. -/
def isWriteOrFlush : Event → Bool
  | Event.write _ => true
  | Event.flush => true
  | _ => false

/-- Whether an event is an external invocation. -/
def isInvoke : Event → Bool
  | Event.invoke _ => true
  | _ => false

/-- Whether a trace contains an uncaught exception. -/
def hasRaise (events : List Event) : Bool :=
  events.any fun e =>
    match e with
    | Event.raise _ => true
    | _ => false

theorem list_all_bytes : ∀ b ∈ list, 0 ≤ b ∧ b ≤ 255 := by decide

theorem structPackB_list : structPackB list.length list = some list := by
  rw [structPackB, if_pos ⟨rfl, list_all_bytes⟩]

theorem runScript_list_trace (tmp : String) (toolExit : Int) :
    (runScript tmp list toolExit).trace =
      [Event.create tmp, Event.write list, Event.flush,
       Event.invoke (objdumpInvocation tmp), Event.close] := by
  rw [runScript, structPackB_list]

theorem runScript_inRange (tmp : String) (toolExit : Int) (payload : List Int)
    (h : ∀ b ∈ payload, 0 ≤ b ∧ b ≤ 255) :
    runScript tmp payload toolExit =
      { trace := [Event.create tmp, Event.write payload, Event.flush,
                  Event.invoke (objdumpInvocation tmp), Event.close]
        toolStatus := some toolExit
        scriptExit := 0 } := by
  rw [runScript, structPackB, if_pos ⟨rfl, h⟩]

end DisassembleHexdump

open DisassembleHexdump

/-- Claim C1: for every byte sequence B whose elements each lie in
[0, 255], struct.pack over B with the count-of-unsigned-bytes format
yields exactly the bytes of B, so the file read back at the moment of the
external invocation holds exactly B in order. -/
theorem DisassembleHexdump.writeStep_roundtrip (tmp : String) (toolExit : Int)
    (payload : List Int) (h : ∀ b ∈ payload, 0 ≤ b ∧ b ≤ 255) :
    structPackB payload.length payload = some payload ∧
    contentsAtInvoke (runScript tmp payload toolExit).trace = some payload := by
  constructor
  · rw [structPackB, if_pos ⟨rfl, h⟩]
  · rw [runScript_inRange tmp toolExit payload h]
    simp [contentsAtInvoke, contentsAtInvokeFrom, applyEvent]

theorem DisassembleHexdump.writeStep_roundtrip_witness :
    (∀ b ∈ ([85, 255, 0] : List Int), 0 ≤ b ∧ b ≤ 255) ∧
    (DisassembleHexdump.structPackB ([85, 255, 0] : List Int).length [85, 255, 0] =
        some [85, 255, 0] ∧
      DisassembleHexdump.contentsAtInvoke
        (DisassembleHexdump.runScript "t" [85, 255, 0] 0).trace = some [85, 255, 0]) :=
  ⟨by decide, DisassembleHexdump.writeStep_roundtrip "t" 0 [85, 255, 0] (by decide)⟩

/-- Claim C2: on every execution of the script, whatever exit status the
external disassembler returns, the temporary file no longer exists once
the run completes: the trace always ends in close, which deletes the
file. -/
theorem DisassembleHexdump.tempFile_released_all_paths (tmp : String) (toolExit : Int) :
    (finalState (runScript tmp list toolExit).trace).present = false := by
  rw [runScript_list_trace]
  simp [finalState, applyEvent]

/-- Claim C3: the script performs exactly one external invocation, of
objdump, on the temporary file path, with the flags -b binary -D -m
i386:x86-64, without capturing stdout. -/
theorem DisassembleHexdump.objdump_invoked_once_with_flags (tmp : String) (toolExit : Int) :
    invocationsOf (runScript tmp list toolExit).trace = [objdumpInvocation tmp] ∧
    (objdumpInvocation tmp).program = "objdump" ∧
    (objdumpInvocation tmp).flags = ["-b", "binary", "-D", "-m", "i386:x86-64"] ∧
    (objdumpInvocation tmp).target = tmp ∧
    (objdumpInvocation tmp).captureStdout = false := by
  refine ⟨?_, rfl, rfl, rfl, rfl⟩
  rw [runScript_list_trace]
  simp [invocationsOf]

/-- Claim C4 counterexample: the write-then-disassemble process is
performed once, not twice: a concrete run contains exactly one write
event and exactly one external invocation. -/
theorem DisassembleHexdump.process_not_performed_twice :
    (writeEvents (runScript "t" list 0).trace).length = 1 ∧
    (invocationsOf (runScript "t" list 0).trace).length = 1 ∧
    ¬ ((writeEvents (runScript "t" list 0).trace).length = 2 ∨
       (invocationsOf (runScript "t" list 0).trace).length = 2) := by
  rw [runScript_list_trace]
  simp [writeEvents, invocationsOf]

/-- Claim C4 amended: the write-then-disassemble process is performed
exactly once, with a single hard-coded byte sequence. -/
theorem DisassembleHexdump.process_performed_once (tmp : String) (toolExit : Int) :
    writeEvents (runScript tmp list toolExit).trace = [list] ∧
    invocationsOf (runScript tmp list toolExit).trace = [objdumpInvocation tmp] := by
  rw [runScript_list_trace]
  constructor
  · simp [writeEvents]
  · simp [invocationsOf]

/-- Claim C5 counterexample: when the external tool exits with status 1,
the script still exits with 0; the value returned by os.system is
discarded, so the tool exit status is not propagated. -/
theorem DisassembleHexdump.exitCode_not_propagated :
    (runScript "t" list 1).toolStatus = some 1 ∧
    (runScript "t" list 1).scriptExit = 0 ∧
    (runScript "t" list 1).scriptExit ≠ 1 := by
  rw [runScript_inRange "t" 1 list list_all_bytes]
  exact ⟨rfl, rfl, by decide⟩

/-- Claim C5 amended: the script observes the exit status of the external
tool but discards it, so the script exit code is 0 whatever the tool
returned. -/
theorem DisassembleHexdump.scriptExit_always_zero (tmp : String) (toolExit : Int) :
    (runScript tmp list toolExit).scriptExit = 0 ∧
    (runScript tmp list toolExit).toolStatus = some toolExit := by
  rw [runScript_inRange tmp toolExit list list_all_bytes]
  exact ⟨rfl, rfl⟩

/-- Claim C6: in every execution of the script, every write and flush
event strictly precedes every external invocation in the trace. -/
theorem DisassembleHexdump.write_flush_before_invoke (tmp : String) (toolExit : Int)
    (i j : Nat)
    (hi : isWriteOrFlush (((runScript tmp list toolExit).trace).getD i Event.close) = true)
    (hj : isInvoke (((runScript tmp list toolExit).trace).getD j Event.close) = true) :
    i < j := by
  rw [runScript_list_trace] at hi hj
  have hj3 : j = 3 := by
    rcases j with _ | _ | _ | _ | _ | n <;>
      simp_all [isInvoke, List.getD_cons_zero, List.getD_cons_succ, List.getD_nil]
  have hi12 : i = 1 ∨ i = 2 := by
    rcases i with _ | _ | _ | _ | _ | n <;>
      simp_all [isWriteOrFlush, List.getD_cons_zero, List.getD_cons_succ, List.getD_nil]
  omega

theorem DisassembleHexdump.write_flush_before_invoke_witness :
    DisassembleHexdump.isWriteOrFlush
        (((DisassembleHexdump.runScript "t" DisassembleHexdump.list 0).trace).getD 1
          DisassembleHexdump.Event.close) = true ∧
    DisassembleHexdump.isInvoke
        (((DisassembleHexdump.runScript "t" DisassembleHexdump.list 0).trace).getD 3
          DisassembleHexdump.Event.close) = true ∧
    (1 : Nat) < 3 :=
  ⟨by rw [DisassembleHexdump.runScript_list_trace]; rfl,
   by rw [DisassembleHexdump.runScript_list_trace]; rfl,
   DisassembleHexdump.write_flush_before_invoke "t" 0 1 3
     (by rw [DisassembleHexdump.runScript_list_trace]; rfl)
     (by rw [DisassembleHexdump.runScript_list_trace]; rfl)⟩

/-- Claim C7: running the write step on the empty byte sequence raises no
error, the script completes with exit code 0, and the external tool sees
a zero-length file. -/
theorem DisassembleHexdump.empty_payload_write_ok (tmp : String) (toolExit : Int) :
    structPackB 0 ([] : List Int) = some [] ∧
    hasRaise (runScript tmp ([] : List Int) toolExit).trace = false ∧
    (runScript tmp ([] : List Int) toolExit).scriptExit = 0 ∧
    contentsAtInvoke (runScript tmp ([] : List Int) toolExit).trace = some [] := by
  rw [runScript_inRange tmp toolExit [] (by simp)]
  refine ⟨by decide, ?_, rfl, ?_⟩
  · simp [hasRaise]
  · simp [contentsAtInvoke, contentsAtInvokeFrom, applyEvent]

/-- Claim C8: every element of the hard-coded byte list lies in [0, 255],
and the list is consumed exactly once, by the single write event that
serialises it to the temporary file. -/
theorem DisassembleHexdump.byteList_invariant_single_use (tmp : String) (toolExit : Int) :
    (∀ b ∈ list, 0 ≤ b ∧ b ≤ 255) ∧
    writeEvents (runScript tmp list toolExit).trace = [list] := by
  refine ⟨list_all_bytes, ?_⟩
  rw [runScript_list_trace]
  simp [writeEvents]

/-- Claim C10: for every byte sequence containing an element outside
[0, 255], struct.pack fails with struct.error, nothing is written to the
temporary file, and the run aborts before the external invocation. -/
theorem DisassembleHexdump.out_of_range_pack_fails (tmp : String) (toolExit : Int)
    (payload : List Int) (h : ∃ b ∈ payload, b < 0 ∨ 255 < b) :
    structPackB payload.length payload = none ∧
    writeEvents (runScript tmp payload toolExit).trace = [] ∧
    (runScript tmp payload toolExit).trace =
      [Event.create tmp, Event.raise "struct.error"] := by
  have hpack : structPackB payload.length payload = none := by
    rw [structPackB, if_neg]
    rintro ⟨-, hall⟩
    obtain ⟨b, hb, hout⟩ := h
    have hbb := hall b hb
    rcases hout with h1 | h1 <;> omega
  refine ⟨hpack, ?_, ?_⟩
  · simp only [runScript, hpack]
    simp [writeEvents]
  · simp only [runScript, hpack]

theorem DisassembleHexdump.out_of_range_pack_fails_witness :
    (∃ b ∈ ([300] : List Int), b < 0 ∨ 255 < b) ∧
    (DisassembleHexdump.structPackB ([300] : List Int).length [300] = none ∧
      DisassembleHexdump.writeEvents
        (DisassembleHexdump.runScript "t" [300] 0).trace = [] ∧
      (DisassembleHexdump.runScript "t" [300] 0).trace =
        [DisassembleHexdump.Event.create "t",
         DisassembleHexdump.Event.raise "struct.error"]) :=
  ⟨by decide, DisassembleHexdump.out_of_range_pack_fails "t" 0 [300] (by decide)⟩
